import Mathlib

/-!
Shallow embedding of `document_ai_agents/document_parsing_agent.py`.

The module defines a two-stage pipeline: `DocumentParsingAgent.get_images`
rasterizes a PDF into base64 PNG page images, and
`DocumentParsingAgent.find_layout_items` sends one request per page to a
generative model and parses each JSON response into `Document` records.

External collaborators (the filesystem check `Path(...).is_file()`, the
rasterizer `extract_images_from_pdf`, the encoder `pil_image_to_base64_png`,
the generative model `self.model.generate_content`, and the JSON parser
`json.loads`) are taken as function parameters, so every theorem quantifies
over their behaviour.  Python exceptions are modelled by the `PyError` sum
type and fallible code returns `Except PyError _`.
-/

namespace DocumentAI

/-- JSON values, as produced by Python's `json.loads`.  Objects are
association lists (duplicate keys are collapsed by `json.loads`, so lookup
of the single binding is faithful). -/
inductive Json where
  | null : Json
  | bool : Bool → Json
  | num : Int → Json
  | str : String → Json
  | arr : List Json → Json
  | obj : List (String × Json) → Json

/-- Python dictionary lookup `d[k]` on a parsed JSON object: `none` models a
`KeyError`. -/
def json_lookup (fields : List (String × Json)) (k : String) : Option Json :=
  match fields with
  | [] => none
  | (k2, v) :: rest => if k2 = k then some v else json_lookup rest k

/-- Python exceptions raised by the two pipeline stages. -/
inductive PyError where
  | assertionError : String → PyError
  | jsonDecodeError : PyError
  | keyError : String → PyError
  | typeError : PyError
  | validationError : PyError

/-- Classification used by the spec's error taxonomy: everything except the
`assert`-raised `InputError` conditions of `get_images` counts as a
schema-violation-class (malformed response) condition. -/
def schema_violation_class : PyError → Bool
  | .assertionError _ => false
  | _ => true

/-- One `langchain_core.documents.Document` as built by `find_layout_items`:
`page_content` holds the item's summary and the metadata dict is flattened
into its two keys `page_number` and `element_type` (the latter can hold any
JSON value, since Python dicts are untyped). -/
structure Document where
  page_content : String
  page_number : Nat
  element_type : Json

/-- The pydantic state `DocumentLayoutParsingState`. -/
structure DocumentLayoutParsingState where
  document_path : String
  pages_as_base64_png_images : List String := []
  documents : List Document := []

/-- The enum of the `Literal` annotation on `DetectedLayoutItem.element_type`. -/
def allowed_element_types : List String :=
  ["Table", "Figure", "Image", "Text-block"]

/-- The pydantic JSON schema `LayoutElements.model_json_schema()` of the
classes `DetectedLayoutItem` and `LayoutElements` declared in the source:
`layout_items` is a plain `list[DetectedLayoutItem]` with default `[]` and no
length constraint; `element_type` is enum-constrained; both item fields are
required.  The instruction "Return 10 Items at most." appears only inside the
`description` string of `element_type`. -/
def LayoutElements_model_json_schema : Json :=
  .obj
    [("$defs",
      .obj
        [("DetectedLayoutItem",
          .obj
            [("properties",
              .obj
                [("element_type",
                  .obj
                    [("description",
                      .str
                        ("Type of detected Item. Find Tables, figures and images. " ++
                         "Use Text-Block for everything else, be as exhaustive as " ++
                         "possible. Return 10 Items at most.")),
                     ("enum", .arr (allowed_element_types.map .str)),
                     ("title", .str "Element Type"),
                     ("type", .str "string")]),
                 ("summary",
                  .obj
                    [("description", .str "A detailed description of the layout Item."),
                     ("title", .str "Summary"),
                     ("type", .str "string")])]),
             ("required", .arr [.str "element_type", .str "summary"]),
             ("title", .str "DetectedLayoutItem"),
             ("type", .str "object")])]),
     ("properties",
      .obj
        [("layout_items",
          .obj
            [("default", .arr []),
             ("items", .obj [("$ref", .str "#/$defs/DetectedLayoutItem")]),
             ("title", .str "Layout Items"),
             ("type", .str "array")])]),
     ("title", .str "LayoutElements"),
     ("type", .str "object")]

/-- Modelled from the spec: `prepare_schema_for_gemini` lives in
`document_ai_agents/schema_utils.py`, which is not part of the sources at
hand.  Per spec section 4.3 the normalizer is a structural, recursive
transformation of the declared result schema — object to
object-with-properties, list-of-T to array-with-items, enum field to
enum-constrained string, required fields preserved — adding no constraint of
its own.  This value is its output on `LayoutElements`. -/
def layout_elements_gemini_schema : Json :=
  .obj
    [("type", .str "object"),
     ("properties",
      .obj
        [("layout_items",
          .obj
            [("type", .str "array"),
             ("items",
              .obj
                [("type", .str "object"),
                 ("properties",
                  .obj
                    [("element_type",
                      .obj
                        [("type", .str "string"),
                         ("enum", .arr (allowed_element_types.map .str))]),
                     ("summary", .obj [("type", .str "string")])]),
                 ("required", .arr [.str "element_type", .str "summary"])])])])]

mutual
/-- Recursive search for a key anywhere in a JSON schema value (used to show
the absence of a `maxItems` constraint). -/
def json_has_key (k : String) : Json → Bool
  | .obj fields => json_has_key_fields k fields
  | .arr xs => json_has_key_arr k xs
  | _ => false

def json_has_key_fields (k : String) : List (String × Json) → Bool
  | [] => false
  | (k2, v) :: rest => k2 = k || json_has_key k v || json_has_key_fields k rest

def json_has_key_arr (k : String) : List Json → Bool
  | [] => false
  | v :: rest => json_has_key k v || json_has_key_arr k rest
end

mutual
/-- Python `repr` of a parsed-JSON value, as interpolated by the f-string in
`find_layout_items` (dict braces and string quotes written via escapes). -/
def pyRepr : Json → String
  | .null => "None"
  | .bool b => if b then "True" else "False"
  | .num n => toString n
  | .str s => "\x27" ++ s ++ "\x27"
  | .arr xs => "[" ++ pyReprList xs ++ "]"
  | .obj fields => "\x7b" ++ pyReprFields fields ++ "\x7d"

def pyReprList : List Json → String
  | [] => ""
  | [v] => pyRepr v
  | v :: rest => pyRepr v ++ ", " ++ pyReprList rest

def pyReprFields : List (String × Json) → String
  | [] => ""
  | [(k, v)] => "\x27" ++ k ++ "\x27: " ++ pyRepr v
  | (k, v) :: rest => "\x27" ++ k ++ "\x27: " ++ pyRepr v ++ ", " ++ pyReprFields rest
end

/-- The fixed instruction string of `find_layout_items` (an f-string
interpolating `LayoutElements.model_json_schema()`). -/
def layout_prompt : String :=
  "Find and summarize all the relevant layout elements in this pdf page in the following format: " ++
  pyRepr LayoutElements_model_json_schema ++
  ". Tables should have at least two columns and at least two rows. " ++
  "The coordinates should overlap with each layout item."

/-- One request to `self.model.generate_content`: the `messages` list
`[prompt, {"mime_type": "image/png", "data": base64_image_page}]`. -/
structure ModelRequest where
  prompt : String
  mime_type : String
  image_data : String

/-- The `messages` value built for one page. -/
def messages (base64_image_page : String) : ModelRequest :=
  { prompt := layout_prompt, mime_type := "image/png", image_data := base64_image_page }

/-- Embedding of `DocumentParsingAgent.get_images`: assert the path is a
file, extract the page images, assert the list is non-empty, and encode each
page.  The `ok` payload is the value of the returned dict
`{"pages_as_base64_png_images": ...}`. -/
def get_images {Image : Type} (is_file : String → Bool)
    (extract_images_from_pdf : String → List Image)
    (pil_image_to_base64_png : Image → String)
    (state : DocumentLayoutParsingState) : Except PyError (List String) :=
  if is_file state.document_path = false then
    .error (.assertionError "File does not exist")
  else
    let images := extract_images_from_pdf state.document_path
    if images.isEmpty then .error (.assertionError "No images extracted")
    else .ok (images.map pil_image_to_base64_png)

/-- One element of the list comprehension in `find_layout_items`:
`Document(page_content=x["summary"], metadata={"page_number": i,
"element_type": x["element_type"]})`.  Python evaluates the `summary` lookup,
then the metadata dict (hence the `element_type` lookup), then pydantic
validation of `page_content` (which must be a string); subscripting a
non-dict raises `TypeError`. -/
def parse_item (i : Nat) (x : Json) : Except PyError Document :=
  match x with
  | .obj fields =>
    match json_lookup fields "summary" with
    | none => .error (.keyError "summary")
    | some sv =>
      match json_lookup fields "element_type" with
      | none => .error (.keyError "element_type")
      | some et =>
        match sv with
        | .str s => .ok { page_content := s, page_number := i, element_type := et }
        | _ => .error .validationError
  | _ => .error .typeError

/-- The list comprehension over `data["layout_items"]`, left to right, first
exception aborts. -/
def parse_items (i : Nat) : List Json → Except PyError (List Document)
  | [] => .ok []
  | x :: rest =>
    match parse_item i x with
    | .error e => .error e
    | .ok d =>
      match parse_items i rest with
      | .error e => .error e
      | .ok ds => .ok (d :: ds)

/-- The body of one iteration of the page loop in `find_layout_items`: call
the model on the page's messages, `json.loads` the response text (`none`
models text that is not valid JSON), subscript `data["layout_items"]`, and
run the comprehension.  Iterating a non-list value is collapsed to
`TypeError`. -/
def process_page (json_loads : String → Option Json)
    (generate_content : ModelRequest → String)
    (i : Nat) (base64_image_page : String) : Except PyError (List Document) :=
  match json_loads (generate_content (messages base64_image_page)) with
  | none => .error .jsonDecodeError
  | some data =>
    match data with
    | .obj fields =>
      match json_lookup fields "layout_items" with
      | none => .error (.keyError "layout_items")
      | some (.arr xs) => parse_items i xs
      | some _ => .error .typeError
    | _ => .error .typeError

/-- The `for i, base64_image_page in enumerate(...)` loop, instrumented with
the trace of model requests issued (first component); the second component is
the `documents` accumulator or the first exception raised. -/
def find_layout_items_go (json_loads : String → Option Json)
    (generate_content : ModelRequest → String) :
    Nat → List String → List ModelRequest × Except PyError (List Document)
  | _, [] => ([], .ok [])
  | i, img :: rest =>
    match process_page json_loads generate_content i img with
    | .error e => ([messages img], .error e)
    | .ok docs =>
      let r := find_layout_items_go json_loads generate_content (i + 1) rest
      (messages img :: r.1,
       match r.2 with
       | .error e => .error e
       | .ok ds => .ok (docs ++ ds))

/-- Embedding of `DocumentParsingAgent.find_layout_items` together with the
trace of model requests it issues, in order. -/
def find_layout_items_run (json_loads : String → Option Json)
    (generate_content : ModelRequest → String)
    (state : DocumentLayoutParsingState) :
    List ModelRequest × Except PyError (List Document) :=
  find_layout_items_go json_loads generate_content 0 state.pages_as_base64_png_images

/-- Embedding of `DocumentParsingAgent.find_layout_items`: the `ok` payload
is the value of the returned dict `{"documents": documents}`. -/
def find_layout_items (json_loads : String → Option Json)
    (generate_content : ModelRequest → String)
    (state : DocumentLayoutParsingState) : Except PyError (List Document) :=
  (find_layout_items_run json_loads generate_content state).2

/-- The documents contributed by one page when its response parses, `[]`
when it raises (used only to state concatenation properties). -/
def pageDocs (json_loads : String → Option Json)
    (generate_content : ModelRequest → String)
    (i : Nat) (img : String) : List Document :=
  match process_page json_loads generate_content i img with
  | .ok docs => docs
  | .error _ => []

/-- Embedding of the `__main__` driver: build the state from a path, run
`get_images`, assign the result back, run `find_layout_items`.  An uncaught
exception in `get_images` aborts before any model request, so the trace is
empty in that case. -/
def main_pipeline {Image : Type} (is_file : String → Bool)
    (extract_images_from_pdf : String → List Image)
    (pil_image_to_base64_png : Image → String)
    (json_loads : String → Option Json)
    (generate_content : ModelRequest → String)
    (document_path : String) :
    List ModelRequest × Except PyError (List Document) :=
  let st : DocumentLayoutParsingState := { document_path := document_path }
  match get_images is_file extract_images_from_pdf pil_image_to_base64_png st with
  | .error e => ([], .error e)
  | .ok pages =>
    find_layout_items_run json_loads generate_content
      { st with pages_as_base64_png_images := pages }

/-- State-transformer rendering of `get_images`: the body only reads
`state.document_path` and assigns no field of `state`, so the post-state is
obtained by performing no write. -/
def get_images_st {Image : Type} (is_file : String → Bool)
    (extract_images_from_pdf : String → List Image)
    (pil_image_to_base64_png : Image → String) :
    StateM DocumentLayoutParsingState (Except PyError (List String)) := do
  let st ← get
  pure (get_images is_file extract_images_from_pdf pil_image_to_base64_png st)

/-- State-transformer rendering of `find_layout_items`: the body only reads
`state.pages_as_base64_png_images` and assigns no field of `state`. -/
def find_layout_items_st (json_loads : String → Option Json)
    (generate_content : ModelRequest → String) :
    StateM DocumentLayoutParsingState
      (List ModelRequest × Except PyError (List Document)) := do
  let st ← get
  pure (find_layout_items_run json_loads generate_content st)

/-! ### Helper lemmas about the page loop -/

theorem parse_item_ok_page_number {i : Nat} {x : Json} {d : Document}
    (h : parse_item i x = .ok d) : d.page_number = i := by
  unfold parse_item at h
  rcases x with _ | b | n | s | xs | fields <;> simp at h
  rcases h1 : json_lookup fields "summary" with _ | sv <;> rw [h1] at h <;> simp at h
  rcases h2 : json_lookup fields "element_type" with _ | et <;> rw [h2] at h <;> simp at h
  rcases sv with _ | b | n | s | xs | f2 <;> simp at h
  rw [← h]

theorem parse_items_page_number {i : Nat} {xs : List Json} {l : List Document}
    (h : parse_items i xs = .ok l) : ∀ d ∈ l, d.page_number = i := by
  induction xs generalizing l with
  | nil =>
    unfold parse_items at h
    simp at h
    subst h
    simp
  | cons x rest ih =>
    unfold parse_items at h
    rcases h1 : parse_item i x with e | d0 <;> rw [h1] at h <;> simp at h
    rcases h2 : parse_items i rest with e | ds <;> rw [h2] at h <;> simp at h
    subst h
    intro d hd
    rcases List.mem_cons.mp hd with hd | hd
    · subst hd; exact parse_item_ok_page_number h1
    · exact ih h2 d hd

theorem process_page_page_number {json_loads : String → Option Json}
    {generate_content : ModelRequest → String} {i : Nat} {img : String}
    {docs : List Document}
    (h : process_page json_loads generate_content i img = .ok docs) :
    ∀ d ∈ docs, d.page_number = i := by
  unfold process_page at h
  repeat' split at h
  all_goals try exact parse_items_page_number h
  all_goals simp at h

theorem parse_item_error_class {i : Nat} {x : Json} {e : PyError}
    (h : parse_item i x = .error e) : schema_violation_class e = true := by
  unfold parse_item at h
  rcases x with _ | b | n | s | xs | fields <;> simp at h <;>
    try (rw [← h]; rfl)
  rcases h1 : json_lookup fields "summary" with _ | sv <;> rw [h1] at h <;>
    simp at h <;> try (rw [← h]; rfl)
  rcases h2 : json_lookup fields "element_type" with _ | et <;> rw [h2] at h <;>
    simp at h <;> try (rw [← h]; rfl)
  rcases sv with _ | b | n | s | xs | f2 <;> simp at h <;> (rw [← h]; rfl)

theorem parse_items_error_class {i : Nat} {xs : List Json} {e : PyError}
    (h : parse_items i xs = .error e) : schema_violation_class e = true := by
  induction xs with
  | nil => unfold parse_items at h; simp at h
  | cons x rest ih =>
    unfold parse_items at h
    rcases h1 : parse_item i x with e1 | d0 <;> rw [h1] at h <;> simp at h
    · subst h; exact parse_item_error_class h1
    · rcases h2 : parse_items i rest with e2 | ds <;> rw [h2] at h <;> simp at h
      subst h; exact ih h2

theorem process_page_error_class {json_loads : String → Option Json}
    {generate_content : ModelRequest → String} {i : Nat} {img : String} {e : PyError}
    (h : process_page json_loads generate_content i img = .error e) :
    schema_violation_class e = true := by
  unfold process_page at h
  repeat' split at h
  all_goals try exact parse_items_error_class h
  all_goals simp at h
  all_goals subst h
  all_goals rfl

theorem go_ok_trace {json_loads : String → Option Json}
    {generate_content : ModelRequest → String} :
    ∀ {i : Nat} {pages : List String} {l : List Document},
    (find_layout_items_go json_loads generate_content i pages).2 = .ok l →
    (find_layout_items_go json_loads generate_content i pages).1 =
      pages.map messages := by
  intro i pages
  induction pages generalizing i with
  | nil => intro l _; rfl
  | cons img rest ih =>
    intro l h
    unfold find_layout_items_go at h ⊢
    rcases hp : process_page json_loads generate_content i img with e | docs <;>
      rw [hp] at h <;> simp at h ⊢
    rcases hr : (find_layout_items_go json_loads generate_content (i + 1) rest).2 with
      e | ds <;> rw [hr] at h <;> simp at h
    exact ih hr

theorem go_ok_pages {json_loads : String → Option Json}
    {generate_content : ModelRequest → String} :
    ∀ {i : Nat} {pages : List String} {l : List Document},
    (find_layout_items_go json_loads generate_content i pages).2 = .ok l →
    ∀ p ∈ pages.enumFrom i,
      process_page json_loads generate_content p.1 p.2 =
        .ok (pageDocs json_loads generate_content p.1 p.2) := by
  intro i pages
  induction pages generalizing i with
  | nil => intro l _ p hp; simp [List.enumFrom] at hp
  | cons img rest ih =>
    intro l h p hp
    unfold find_layout_items_go at h
    rcases hpr : process_page json_loads generate_content i img with e | docs <;>
      rw [hpr] at h <;> simp at h
    rcases hr : (find_layout_items_go json_loads generate_content (i + 1) rest).2 with
      e | ds <;> rw [hr] at h <;> simp at h
    simp [List.enumFrom] at hp
    rcases hp with hp | hp
    · subst hp
      simp [pageDocs, hpr]
    · exact ih hr p hp

theorem go_ok_docs {json_loads : String → Option Json}
    {generate_content : ModelRequest → String} :
    ∀ {i : Nat} {pages : List String} {l : List Document},
    (find_layout_items_go json_loads generate_content i pages).2 = .ok l →
    l = ((pages.enumFrom i).map
          (fun p => pageDocs json_loads generate_content p.1 p.2)).flatten := by
  intro i pages
  induction pages generalizing i with
  | nil =>
    intro l h
    unfold find_layout_items_go at h
    simp at h
    subst h
    rfl
  | cons img rest ih =>
    intro l h
    unfold find_layout_items_go at h
    rcases hpr : process_page json_loads generate_content i img with e | docs <;>
      rw [hpr] at h <;> simp at h
    rcases hr : (find_layout_items_go json_loads generate_content (i + 1) rest).2 with
      e | ds <;> rw [hr] at h <;> simp at h
    subst h
    simp [List.enumFrom, pageDocs, hpr, ih hr]

theorem go_error_of_page_error {json_loads : String → Option Json}
    {generate_content : ModelRequest → String} {i j : Nat} {img : String}
    {pages : List String} {e : PyError}
    (hmem : (j, img) ∈ pages.enumFrom i)
    (herr : process_page json_loads generate_content j img = .error e) :
    ∃ e2, (find_layout_items_go json_loads generate_content i pages).2 = .error e2 := by
  rcases hres : (find_layout_items_go json_loads generate_content i pages).2 with
    e2 | l
  · exact ⟨e2, rfl⟩
  · have := go_ok_pages hres (j, img) hmem
    rw [herr] at this
    simp at this

theorem go_error_class {json_loads : String → Option Json}
    {generate_content : ModelRequest → String} :
    ∀ {i : Nat} {pages : List String} {e : PyError},
    (find_layout_items_go json_loads generate_content i pages).2 = .error e →
    schema_violation_class e = true := by
  intro i pages
  induction pages generalizing i with
  | nil => intro e h; simp [find_layout_items_go] at h
  | cons img rest ih =>
    intro e h
    unfold find_layout_items_go at h
    rcases hpr : process_page json_loads generate_content i img with e1 | docs <;>
      rw [hpr] at h <;> simp at h
    · subst h; exact process_page_error_class hpr
    · rcases hr : (find_layout_items_go json_loads generate_content (i + 1) rest).2 with
        e2 | ds <;> rw [hr] at h <;> simp at h
      subst h; exact ih hr

theorem go_ok_mem {json_loads : String → Option Json}
    {generate_content : ModelRequest → String} :
    ∀ {i : Nat} {pages : List String} {l : List Document},
    (find_layout_items_go json_loads generate_content i pages).2 = .ok l →
    ∀ d ∈ l, i ≤ d.page_number ∧
      ∃ h : d.page_number - i < pages.length,
        d ∈ pageDocs json_loads generate_content d.page_number
              (pages.get ⟨d.page_number - i, h⟩) := by
  intro i pages
  induction pages generalizing i with
  | nil =>
    intro l h d hd
    unfold find_layout_items_go at h
    simp at h
    subst h
    simp at hd
  | cons img rest ih =>
    intro l h d hd
    unfold find_layout_items_go at h
    rcases hpr : process_page json_loads generate_content i img with e | docs <;>
      rw [hpr] at h <;> simp at h
    rcases hr : (find_layout_items_go json_loads generate_content (i + 1) rest).2 with
      e | ds <;> rw [hr] at h <;> simp at h
    subst h
    rcases List.mem_append.mp hd with hmem | hmem
    · have hpn := process_page_page_number hpr d hmem
      refine ⟨by omega, by simp [hpn], ?_⟩
      have : d.page_number - i = 0 := by omega
      simp [this, hpn, pageDocs, hpr]
      exact hmem
    · obtain ⟨hle, hlt, hdm⟩ := ih hr d hmem
      refine ⟨by omega, by simp; omega, ?_⟩
      have h1 : d.page_number - i = (d.page_number - (i + 1)) + 1 := by omega
      simp only [h1, List.get]
      exact hdm

/-! ### Claim theorems -/

/-- C1: every layout element produced by `find_layout_items` carries a
`page_number` that is a valid zero-based index into the list of page images,
and the element was produced while processing the page image at that index. -/
theorem C1_page_number_valid_index (json_loads : String → Option Json)
    (generate_content : ModelRequest → String)
    (state : DocumentLayoutParsingState) (l : List Document)
    (h : find_layout_items json_loads generate_content state = .ok l) :
    ∀ d ∈ l,
      ∃ hlt : d.page_number < state.pages_as_base64_png_images.length,
        d ∈ pageDocs json_loads generate_content d.page_number
              (state.pages_as_base64_png_images.get ⟨d.page_number, hlt⟩) := by
  intro d hd
  have h2 : (find_layout_items_go json_loads generate_content 0
      state.pages_as_base64_png_images).2 = .ok l := h
  obtain ⟨-, hlt, hmem⟩ := go_ok_mem h2 d hd
  exact ⟨hlt, hmem⟩

def w1_json_loads : String → Option Json :=
  fun _ =>
    some (.obj [("layout_items",
      .arr [.obj [("element_type", .str "Text-block"), ("summary", .str "w")]])])

def w1_generate_content : ModelRequest → String := fun _ => "w1resp"

def w1_state : DocumentLayoutParsingState :=
  { document_path := "a.pdf", pages_as_base64_png_images := ["w1page"] }

/-- Witness for C1 at a concrete one-page model run and its one element. -/
theorem C1_witness :
    ∃ hlt : (Document.mk "w" 0 (.str "Text-block")).page_number <
        w1_state.pages_as_base64_png_images.length,
      Document.mk "w" 0 (.str "Text-block") ∈
        pageDocs w1_json_loads w1_generate_content
          (Document.mk "w" 0 (.str "Text-block")).page_number
          (w1_state.pages_as_base64_png_images.get
            ⟨(Document.mk "w" 0 (.str "Text-block")).page_number, hlt⟩) :=
  C1_page_number_valid_index w1_json_loads w1_generate_content w1_state
    [Document.mk "w" 0 (.str "Text-block")] rfl
    (Document.mk "w" 0 (.str "Text-block")) (by simp)

/-- C2: on a successful run, `find_layout_items` issues exactly one model
request per page, in page order, and the returned `documents` list is the
concatenation of the per-page element lists in page order (each page's
elements in the order the model returned them, as `parse_items` preserves
response order). -/
theorem C2_one_request_per_page_in_order (json_loads : String → Option Json)
    (generate_content : ModelRequest → String)
    (state : DocumentLayoutParsingState) (l : List Document)
    (h : find_layout_items json_loads generate_content state = .ok l) :
    (find_layout_items_run json_loads generate_content state).1 =
        state.pages_as_base64_png_images.map messages ∧
    l = ((state.pages_as_base64_png_images.enum).map
          (fun p => pageDocs json_loads generate_content p.1 p.2)).flatten ∧
    ∀ p ∈ state.pages_as_base64_png_images.enum,
      process_page json_loads generate_content p.1 p.2 =
        .ok (pageDocs json_loads generate_content p.1 p.2) := by
  have h2 : (find_layout_items_go json_loads generate_content 0
      state.pages_as_base64_png_images).2 = .ok l := h
  exact ⟨go_ok_trace h2, go_ok_docs h2, go_ok_pages h2⟩

def w2_json_loads : String → Option Json :=
  fun _ => some (.obj [("layout_items", .arr [])])

def w2_generate_content : ModelRequest → String := fun _ => "w2resp"

def w2_state : DocumentLayoutParsingState :=
  { document_path := "a.pdf", pages_as_base64_png_images := ["w2a", "w2b"] }

/-- Witness for C2 at a concrete two-page model run. -/
theorem C2_witness :
    (find_layout_items_run w2_json_loads w2_generate_content w2_state).1 =
        w2_state.pages_as_base64_png_images.map messages ∧
    ([] : List Document) = ((w2_state.pages_as_base64_png_images.enum).map
          (fun p => pageDocs w2_json_loads w2_generate_content p.1 p.2)).flatten ∧
    ∀ p ∈ w2_state.pages_as_base64_png_images.enum,
      process_page w2_json_loads w2_generate_content p.1 p.2 =
        .ok (pageDocs w2_json_loads w2_generate_content p.1 p.2) :=
  C2_one_request_per_page_in_order w2_json_loads w2_generate_content w2_state [] rfl

/-- C4: when some page's model response text is not valid JSON,
`find_layout_items` raises a schema-violation-class condition and returns no
elements at all — there is no partial result, and the caller's state is
unchanged (the run returns a fresh value only). -/
theorem C4_malformed_json_aborts (json_loads : String → Option Json)
    (generate_content : ModelRequest → String)
    (state : DocumentLayoutParsingState)
    (h : ∃ p ∈ state.pages_as_base64_png_images.enum,
           json_loads (generate_content (messages p.2)) = none) :
    (∃ e, find_layout_items json_loads generate_content state = .error e ∧
          schema_violation_class e = true) ∧
    (∀ l, find_layout_items json_loads generate_content state ≠ .ok l) ∧
    ((find_layout_items_st json_loads generate_content).run state).2 = state := by
  obtain ⟨⟨j, img⟩, hmem, hnone⟩ := h
  have hperr : process_page json_loads generate_content j img =
      .error .jsonDecodeError := by
    unfold process_page; rw [hnone]
  have hmem0 : (j, img) ∈ state.pages_as_base64_png_images.enumFrom 0 := hmem
  obtain ⟨e2, he2⟩ := go_error_of_page_error hmem0 hperr
  refine ⟨⟨e2, he2, go_error_class he2⟩, ?_, rfl⟩
  intro l hl
  have h2 : (find_layout_items_go json_loads generate_content 0
      state.pages_as_base64_png_images).2 = .ok l := hl
  rw [he2] at h2
  simp at h2

def w4_json_loads : String → Option Json := fun _ => none

def w4_generate_content : ModelRequest → String := fun _ => "w4resp"

def w4_state : DocumentLayoutParsingState :=
  { document_path := "a.pdf", pages_as_base64_png_images := ["w4page"] }

/-- Witness for C4 at a concrete run whose only response is malformed. -/
theorem C4_witness :
    (∃ e, find_layout_items w4_json_loads w4_generate_content w4_state = .error e ∧
          schema_violation_class e = true) ∧
    (∀ l, find_layout_items w4_json_loads w4_generate_content w4_state ≠ .ok l) ∧
    ((find_layout_items_st w4_json_loads w4_generate_content).run w4_state).2 =
      w4_state :=
  C4_malformed_json_aborts w4_json_loads w4_generate_content w4_state
    ⟨(0, "w4page"), by simp [w4_state, List.enum, List.enumFrom], rfl⟩

/-- C10: on a state whose page list is empty, `find_layout_items` succeeds
with an empty `documents` list and issues no model request. -/
theorem C10_empty_pages_ok_no_requests (json_loads : String → Option Json)
    (generate_content : ModelRequest → String)
    (path : String) (docs : List Document) :
    find_layout_items_run json_loads generate_content
      { document_path := path, pages_as_base64_png_images := [],
        documents := docs } = ([], .ok []) := rfl

/-- C3: `get_images` fails (with an `assert`-raised, `InputError`-class
condition) exactly when the document path does not reference an existing file
or no page images can be extracted; in either failure case the pipeline
issues no model request; on success the returned list is the non-empty list
of encoded pages, one per extracted page. -/
theorem C3_get_images_input_error {Image : Type} (is_file : String → Bool)
    (extract_images_from_pdf : String → List Image)
    (pil_image_to_base64_png : Image → String)
    (json_loads : String → Option Json)
    (generate_content : ModelRequest → String)
    (state : DocumentLayoutParsingState) :
    ((∃ e, get_images is_file extract_images_from_pdf pil_image_to_base64_png state
        = .error e) ↔
      (is_file state.document_path = false ∨
       extract_images_from_pdf state.document_path = [])) ∧
    (∀ e, get_images is_file extract_images_from_pdf pil_image_to_base64_png state
        = .error e → ∃ msg, e = .assertionError msg) ∧
    ((is_file state.document_path = false ∨
      extract_images_from_pdf state.document_path = []) →
      (main_pipeline is_file extract_images_from_pdf pil_image_to_base64_png
        json_loads generate_content state.document_path).1 = []) ∧
    (∀ l, get_images is_file extract_images_from_pdf pil_image_to_base64_png state
        = .ok l →
      l ≠ [] ∧
      l = (extract_images_from_pdf state.document_path).map pil_image_to_base64_png ∧
      l.length = (extract_images_from_pdf state.document_path).length) := by
  by_cases hf : is_file state.document_path = false
  · refine ⟨⟨fun _ => Or.inl hf, fun _ => ?_⟩, ?_, ?_, ?_⟩
    · exact ⟨.assertionError "File does not exist", by simp [get_images, hf]⟩
    · intro e he
      simp [get_images, hf] at he
      exact ⟨"File does not exist", he.symm⟩
    · intro _
      simp [main_pipeline, get_images, hf]
    · intro l hl
      simp [get_images, hf] at hl
  · by_cases hi : extract_images_from_pdf state.document_path = []
    · refine ⟨⟨fun _ => Or.inr hi, fun _ => ?_⟩, ?_, ?_, ?_⟩
      · exact ⟨.assertionError "No images extracted", by simp [get_images, hf, hi]⟩
      · intro e he
        simp [get_images, hf, hi] at he
        exact ⟨"No images extracted", he.symm⟩
      · intro _
        simp [main_pipeline, get_images, hf, hi]
      · intro l hl
        simp [get_images, hf, hi] at hl
    · refine ⟨⟨?_, ?_⟩, ?_, ?_, ?_⟩
      · rintro ⟨e, he⟩
        simp [get_images, hf, hi] at he
      · rintro (h | h)
        · exact absurd h hf
        · exact absurd h hi
      · intro e he
        simp [get_images, hf, hi] at he
      · rintro (h | h)
        · exact absurd h hf
        · exact absurd h hi
      · intro l hl
        simp [get_images, hf, hi] at hl
        subst hl
        refine ⟨?_, rfl, by simp⟩
        simp [hi]

def w3_is_file : String → Bool := fun p => p = "present.pdf"

def w3_extract : String → List Nat := fun _ => []

def w3_encode : Nat → String := fun n => toString n

def w3_state : DocumentLayoutParsingState := { document_path := "missing.pdf" }

/-- Witness for C3: a path the filesystem does not recognise is rejected and
the pipeline issues no request. -/
theorem C3_witness :
    (∃ e, get_images w3_is_file w3_extract w3_encode w3_state = .error e) ∧
    (main_pipeline w3_is_file w3_extract w3_encode w4_json_loads
      w4_generate_content w3_state.document_path).1 = [] := by
  have h := C3_get_images_input_error w3_is_file w3_extract w3_encode
    w4_json_loads w4_generate_content w3_state
  have hf : w3_is_file w3_state.document_path = false := by decide
  exact ⟨h.1.mpr (Or.inl hf), h.2.2.1 (Or.inl hf)⟩

def two_page_state : DocumentLayoutParsingState :=
  { document_path := "doc.pdf",
    pages_as_base64_png_images := ["page0png", "page1png"] }

def two_page_generate_content : ModelRequest → String :=
  fun r => if r.image_data = "page0png" then "resp0" else "resp1"

def two_page_json_loads : String → Option Json :=
  fun t =>
    if t = "resp0" then
      some (.obj [("layout_items",
        .arr [.obj [("element_type", .str "Table"),
                    ("summary", .str "Revenue table")]])])
    else if t = "resp1" then some (.obj [("layout_items", .arr [])])
    else none

/-- C7: with two pages whose responses are one Table item and an empty item
list, the output is exactly one element (summary "Revenue table", type Table,
page 0) and page 1 contributes zero elements. -/
theorem C7_two_page_scenario :
    find_layout_items two_page_json_loads two_page_generate_content two_page_state =
      .ok [{ page_content := "Revenue table", page_number := 0,
             element_type := .str "Table" }] ∧
    pageDocs two_page_json_loads two_page_generate_content 1 "page1png" = [] :=
  ⟨rfl, rfl⟩

/-- C8: the pipeline is deterministic — two runs on the same document path
with extensionally equal (deterministic) collaborators produce identical
ordered element sequences and request traces. -/
theorem C8_pipeline_deterministic {Image : Type}
    (is_file1 is_file2 : String → Bool)
    (extract1 extract2 : String → List Image)
    (encode1 encode2 : Image → String)
    (json_loads1 json_loads2 : String → Option Json)
    (generate_content1 generate_content2 : ModelRequest → String)
    (path1 path2 : String)
    (h1 : ∀ x, is_file1 x = is_file2 x)
    (h2 : ∀ x, extract1 x = extract2 x)
    (h3 : ∀ x, encode1 x = encode2 x)
    (h4 : ∀ x, json_loads1 x = json_loads2 x)
    (h5 : ∀ x, generate_content1 x = generate_content2 x)
    (h6 : path1 = path2) :
    main_pipeline is_file1 extract1 encode1 json_loads1 generate_content1 path1 =
      main_pipeline is_file2 extract2 encode2 json_loads2 generate_content2 path2 := by
  have e1 : is_file1 = is_file2 := funext h1
  have e2 : extract1 = extract2 := funext h2
  have e3 : encode1 = encode2 := funext h3
  have e4 : json_loads1 = json_loads2 := funext h4
  have e5 : generate_content1 = generate_content2 := funext h5
  rw [e1, e2, e3, e4, e5, h6]

/-- Witness for C8 at concrete collaborators. -/
theorem C8_witness :
    main_pipeline w3_is_file w3_extract w3_encode w4_json_loads
        w4_generate_content "missing.pdf" =
      main_pipeline w3_is_file w3_extract w3_encode w4_json_loads
        w4_generate_content "missing.pdf" :=
  C8_pipeline_deterministic w3_is_file w3_is_file w3_extract w3_extract
    w3_encode w3_encode w4_json_loads w4_json_loads
    w4_generate_content w4_generate_content "missing.pdf" "missing.pdf"
    (fun _ => rfl) (fun _ => rfl) (fun _ => rfl) (fun _ => rfl) (fun _ => rfl) rfl

/-- C9: neither stage mutates the `DocumentLayoutParsingState` it receives —
the post-state equals the input state, each stage's result is the pure
function of the state it reads, `get_images` reads only `document_path` and
`find_layout_items` reads only `pages_as_base64_png_images` (so results take
effect only when the `__main__` caller assigns them back). -/
theorem C9_no_state_mutation {Image : Type} (is_file : String → Bool)
    (extract_images_from_pdf : String → List Image)
    (pil_image_to_base64_png : Image → String)
    (json_loads : String → Option Json)
    (generate_content : ModelRequest → String)
    (s s2 : DocumentLayoutParsingState) :
    ((get_images_st is_file extract_images_from_pdf pil_image_to_base64_png).run
        s).2 = s ∧
    ((find_layout_items_st json_loads generate_content).run s).2 = s ∧
    ((get_images_st is_file extract_images_from_pdf pil_image_to_base64_png).run
        s).1 =
      get_images is_file extract_images_from_pdf pil_image_to_base64_png s ∧
    ((find_layout_items_st json_loads generate_content).run s).1 =
      find_layout_items_run json_loads generate_content s ∧
    (s.document_path = s2.document_path →
      get_images is_file extract_images_from_pdf pil_image_to_base64_png s =
        get_images is_file extract_images_from_pdf pil_image_to_base64_png s2) ∧
    (s.pages_as_base64_png_images = s2.pages_as_base64_png_images →
      find_layout_items_run json_loads generate_content s =
        find_layout_items_run json_loads generate_content s2) := by
  refine ⟨rfl, rfl, rfl, rfl, ?_, ?_⟩
  · intro h
    unfold get_images
    rw [h]
  · intro h
    unfold find_layout_items_run
    rw [h]

/-- Witness for C9 at concrete states differing only in fields each stage
does not read. -/
theorem C9_witness :
    ((get_images_st w3_is_file w3_extract w3_encode).run w3_state).2 = w3_state ∧
    ((find_layout_items_st w4_json_loads w4_generate_content).run w3_state).2 =
      w3_state ∧
    ((get_images_st w3_is_file w3_extract w3_encode).run w3_state).1 =
      get_images w3_is_file w3_extract w3_encode w3_state ∧
    ((find_layout_items_st w4_json_loads w4_generate_content).run w3_state).1 =
      find_layout_items_run w4_json_loads w4_generate_content w3_state ∧
    (w3_state.document_path =
        ({ document_path := "missing.pdf", documents := [] } :
          DocumentLayoutParsingState).document_path →
      get_images w3_is_file w3_extract w3_encode w3_state =
        get_images w3_is_file w3_extract w3_encode
          { document_path := "missing.pdf", documents := [] }) ∧
    (w3_state.pages_as_base64_png_images =
        ({ document_path := "missing.pdf", documents := [] } :
          DocumentLayoutParsingState).pages_as_base64_png_images →
      find_layout_items_run w4_json_loads w4_generate_content w3_state =
        find_layout_items_run w4_json_loads w4_generate_content
          { document_path := "missing.pdf", documents := [] }) :=
  C9_no_state_mutation w3_is_file w3_extract w3_encode w4_json_loads
    w4_generate_content w3_state { document_path := "missing.pdf", documents := [] }

/-! ### C5: missing fields abort, but an out-of-enum element_type is accepted -/

theorem parse_item_missing_field {i : Nat} {xf : List (String × Json)}
    (h : json_lookup xf "summary" = none ∨ json_lookup xf "element_type" = none) :
    ∃ e, parse_item i (.obj xf) = .error e := by
  rcases hs : json_lookup xf "summary" with _ | sv
  · exact ⟨.keyError "summary", by simp [parse_item, hs]⟩
  · rcases h with h | h
    · rw [hs] at h; simp at h
    · exact ⟨.keyError "element_type", by simp [parse_item, hs, h]⟩

theorem parse_items_error_of_item_error {i : Nat} {xs : List Json} {x : Json}
    (hmem : x ∈ xs) (hx : ∃ e, parse_item i x = .error e) :
    ∃ e2, parse_items i xs = .error e2 := by
  induction xs with
  | nil => simp at hmem
  | cons y rest ih =>
    rcases List.mem_cons.mp hmem with h | h
    · subst h
      obtain ⟨e, he⟩ := hx
      exact ⟨e, by unfold parse_items; rw [he]⟩
    · rcases hy : parse_item i y with e | d
      · exact ⟨e, by unfold parse_items; rw [hy]⟩
      · obtain ⟨e2, he2⟩ := ih h
        exact ⟨e2, by simp [parse_items, hy, he2]⟩

theorem process_page_error_of_bad_item {json_loads : String → Option Json}
    {generate_content : ModelRequest → String} {i : Nat} {img : String}
    {fields : List (String × Json)} {items : List Json} {x : Json}
    (hres : json_loads (generate_content (messages img)) = some (.obj fields))
    (hitems : json_lookup fields "layout_items" = some (.arr items))
    (hmem : x ∈ items) (hx : ∃ e, parse_item i x = .error e) :
    ∃ e2, process_page json_loads generate_content i img = .error e2 := by
  obtain ⟨e2, he2⟩ := parse_items_error_of_item_error hmem hx
  exact ⟨e2, by simp [process_page, hres, hitems, he2]⟩

def banana_json_loads : String → Option Json :=
  fun _ =>
    some (.obj [("layout_items",
      .arr [.obj [("element_type", .str "Banana"),
                  ("summary", .str "mystery region")]])])

def banana_generate_content : ModelRequest → String := fun _ => "banana-resp"

def banana_state : DocumentLayoutParsingState :=
  { document_path := "doc.pdf", pages_as_base64_png_images := ["bpage"] }

/-- C5 counterexample: a valid-JSON response whose single item carries the
element_type "Banana" — outside the enum — does NOT make `find_layout_items`
fail: the element is accepted and passed through unvalidated. -/
theorem C5_counterexample :
    find_layout_items banana_json_loads banana_generate_content banana_state =
      .ok [{ page_content := "mystery region", page_number := 0,
             element_type := .str "Banana" }] ∧
    "Banana" ∉ allowed_element_types :=
  ⟨rfl, by decide⟩

/-- C5 amended: if some page's valid-JSON response contains a layout item
that omits a required field (`element_type` or `summary`),
`find_layout_items` fails with a schema-violation-class (`KeyError`)
condition and aborts the run; an `element_type` outside the enum is, by
contrast, not re-validated and is accepted. -/
theorem C5_amended_missing_field_aborts (json_loads : String → Option Json)
    (generate_content : ModelRequest → String)
    (state : DocumentLayoutParsingState)
    (h : ∃ p ∈ state.pages_as_base64_png_images.enum,
          ∃ fields items xf,
           json_loads (generate_content (messages p.2)) = some (.obj fields) ∧
           json_lookup fields "layout_items" = some (.arr items) ∧
           Json.obj xf ∈ items ∧
           (json_lookup xf "summary" = none ∨
            json_lookup xf "element_type" = none)) :
    ∃ e, find_layout_items json_loads generate_content state = .error e ∧
      schema_violation_class e = true := by
  obtain ⟨⟨j, img⟩, hmem, fields, items, xf, hres, hitems, hxmem, hmf⟩ := h
  obtain ⟨e2, he2⟩ :=
    process_page_error_of_bad_item hres hitems hxmem (parse_item_missing_field hmf)
  have hmem0 : (j, img) ∈ state.pages_as_base64_png_images.enumFrom 0 := hmem
  obtain ⟨e3, he3⟩ := go_error_of_page_error hmem0 he2
  exact ⟨e3, he3, go_error_class he3⟩

def w5_json_loads : String → Option Json :=
  fun _ => some (.obj [("layout_items",
    .arr [.obj [("element_type", .str "Table")]])])

def w5_generate_content : ModelRequest → String := fun _ => "w5resp"

def w5_state : DocumentLayoutParsingState :=
  { document_path := "doc.pdf", pages_as_base64_png_images := ["w5page"] }

/-- Witness for the amended C5: an item with no summary raises. -/
theorem C5_amended_witness :
    ∃ e, find_layout_items w5_json_loads w5_generate_content w5_state = .error e ∧
      schema_violation_class e = true :=
  C5_amended_missing_field_aborts w5_json_loads w5_generate_content w5_state
    ⟨(0, "w5page"), by simp [w5_state, List.enum, List.enumFrom],
     [("layout_items", .arr [.obj [("element_type", .str "Table")]])],
     [.obj [("element_type", .str "Table")]],
     [("element_type", .str "Table")],
     rfl, rfl, by simp, Or.inl rfl⟩

/-! ### C6: no 10-item bound is enforced anywhere -/

def eleven_item : Json :=
  .obj [("element_type", .str "Text-block"), ("summary", .str "chunk")]

def eleven_doc (i : Nat) : Document :=
  { page_content := "chunk", page_number := i, element_type := .str "Text-block" }

def eleven_json_loads : String → Option Json :=
  fun _ => some (.obj [("layout_items", .arr (List.replicate 11 eleven_item))])

def eleven_generate_content : ModelRequest → String := fun _ => "eleven-resp"

def eleven_state : DocumentLayoutParsingState :=
  { document_path := "doc.pdf", pages_as_base64_png_images := ["epage"] }

/-- C6 counterexample: a response with 11 layout_items is not rejected by
anything — `find_layout_items` accepts all 11 elements from a single
inference call. -/
theorem C6_counterexample :
    find_layout_items eleven_json_loads eleven_generate_content eleven_state =
      .ok (List.replicate 11 (eleven_doc 0)) ∧
    (List.replicate 11 (eleven_doc 0)).length > 10 :=
  ⟨rfl, by decide⟩

theorem parse_items_replicate (i : Nat) :
    ∀ n : Nat, parse_items i (List.replicate n eleven_item) =
      .ok (List.replicate n (eleven_doc i)) := by
  intro n
  induction n with
  | zero => rfl
  | succ n ih =>
    rw [List.replicate_succ, List.replicate_succ]
    have hp : parse_item i eleven_item = .ok (eleven_doc i) := rfl
    simp [parse_items, hp, ih]

/-- C6 amended: no component enforces a 10-element bound: the pydantic schema
of `LayoutElements` and the normalized schema handed to the model carry no
`maxItems` (or `max_items`) constraint — the "Return 10 Items at most."
wording is prose inside a description string — and `find_layout_items`
performs no re-validation, accepting a response of any length n. -/
theorem C6_amended_no_ten_item_bound :
    json_has_key "maxItems" LayoutElements_model_json_schema = false ∧
    json_has_key "max_items" LayoutElements_model_json_schema = false ∧
    json_has_key "maxItems" layout_elements_gemini_schema = false ∧
    json_has_key "max_items" layout_elements_gemini_schema = false ∧
    ∀ n : Nat, ∃ (json_loads : String → Option Json)
        (generate_content : ModelRequest → String)
        (state : DocumentLayoutParsingState) (l : List Document),
      find_layout_items json_loads generate_content state = .ok l ∧
      l.length = n := by
  refine ⟨by decide, by decide, by decide, by decide, ?_⟩
  intro n
  refine ⟨fun _ => some (.obj [("layout_items", .arr (List.replicate n eleven_item))]),
    fun _ => "resp",
    { document_path := "d.pdf", pages_as_base64_png_images := ["p"] },
    List.replicate n (eleven_doc 0), ?_, by simp⟩
  show (find_layout_items_go _ _ 0 ["p"]).2 = _
  unfold find_layout_items_go
  have hpp : process_page
      (fun _ => some (.obj [("layout_items", .arr (List.replicate n eleven_item))]))
      (fun _ => "resp") 0 "p" = .ok (List.replicate n (eleven_doc 0)) := by
    simp [process_page, json_lookup, parse_items_replicate]
  rw [hpp]
  simp [find_layout_items_go]

end DocumentAI
